import Mathlib

/-!
Shallow embedding of the libultrabus typed-value model, Properties map,
message argument extraction and connection reply-correlation logic,
with theorems checking the natural-language specification against it.

Sources embedded (file names refer to src/ultrabus/):
  dbus_basic.cpp / dbus_type.cpp / dbus_type_base.cpp  - scalar values, base dispatch
  dbus_struct.cpp, dbus_array.cpp, dbus_dict_entry.cpp, dbus_variant.cpp - containers
  utils.cpp        - clone_dbus_type
  Properties.cpp   - keyed get/set/remove over an a\x7bsv\x7d array
  Message.cpp      - Message::get_args
  Connection.cpp   - disconnect, send, dbus_pending_msg_cb (pending-request table)

Conventions: C++ functions that can crash (dereference a null pointer,
perform out-of-bounds iterator arithmetic) or throw are modelled with an
explicit failure value; `Option` results use `none` for such exceptional or
undefined outcomes, and the `cpp_result` type distinguishes a thrown C++
exception from undefined behavior where a claim needs the distinction.
Machine integers of the C++ union DBusBasicValue are represented by `Int`;
no verified property depends on overflow or floating-point arithmetic, and
double payloads are represented by their integer surrogate.
-/

/-- Result of a C++ member function call: normal completion, a thrown
exception (std::invalid_argument, std::out_of_range, ...), or undefined
behavior (invalid iterator arithmetic, null-pointer dereference). -/
inductive cpp_result (α : Type) where
| ok (value : α)
| thrown
| ub
deriving DecidableEq, Repr

/-- Model of class dbus_basic (dbus_basic.hpp/cpp): a one-character DBus
signature, the string payload str_val (used for signatures s, o and g) and
the numeric payload of the DBusBasicValue union, collapsed to one `Int`
(each C++ accessor reads the union member matching the stored signature). -/
structure dbus_basic where
  sig : String
  str_val : String
  num_val : Int
deriving DecidableEq, Repr

/-- String-typed signatures: DBUS_TYPE_STRING, DBUS_TYPE_OBJECT_PATH and
DBUS_TYPE_SIGNATURE, the three cases in which dbus_basic keeps str_val. -/
def dbus_basic.is_string_kind (b : dbus_basic) : Bool :=
  b.sig = "s" || b.sig = "o" || b.sig = "g"

/-- Model of dbus_basic::str (dbus_basic.cpp:465-497): string kinds render
str_val, booleans render true/false, a byte is streamed as a raw character,
the remaining numeric kinds print the stored number. -/
def dbus_basic.str (b : dbus_basic) : String :=
  if b.is_string_kind then b.str_val
  else if b.sig = "y" then String.singleton (Char.ofNat b.num_val.toNat)
  else if b.sig = "b" then (if b.num_val ≠ 0 then "true" else "false")
  else toString b.num_val

/-- Model of dbus_basic::copy (dbus_basic.cpp:613-637) restricted to a
basic source: sig and the union value are copied; str_val is copied for
string kinds and reset to the empty string otherwise. -/
def dbus_basic.copy_fields (b : dbus_basic) : dbus_basic :=
  if b.is_string_kind then b else { b with str_val := "" }

/-- Model of dbus_basic(const std::string&, int str_type=DBUS_TYPE_STRING)
(dbus_basic.cpp:240-251) at the default string type. -/
def dbus_basic.of_string (s : String) : dbus_basic :=
  { sig := "s", str_val := s, num_val := 0 }

/-- Model of dbus_basic(const int32_t value) (dbus_basic.cpp:174-180). -/
def dbus_basic.of_i32 (v : Int) : dbus_basic :=
  { sig := "i", str_val := "", num_val := v }

/-- Model of the dbus_type class hierarchy (dbus_type.hpp and the concrete
subclasses): a tagged union over the five concrete kinds. Containers carry
the sig member exactly as the C++ objects store it; an array additionally
carries element_sig, a dict entry its two optional shared_ptr slots and a
variant its optional payload (a null shared_ptr becomes `none`). -/
inductive dbus_type where
| basic (b : dbus_basic)
| strct (sig : String) (elements : List dbus_type)
| array (sig : String) (element_sig : String) (elements : List dbus_type)
| dict_entry (sig : String) (dict_key : Option dbus_basic) (dict_value : Option dbus_type)
| variant (val : Option dbus_type)

/-- Model of dbus_type::signature (dbus_type.cpp:69-72): the stored sig
member; a variant's sig is fixed to "v" by its constructors. -/
def dbus_type.signature : dbus_type → String
| .basic b => b.sig
| .strct s _ => s
| .array s _ _ => s
| .dict_entry s _ _ => s
| .variant _ => "v"

/-- Model of the virtual type_code methods: dbus_basic returns its first
signature character (dbus_basic.cpp:322-325), the containers return the
libdbus codes DBUS_TYPE_STRUCT = 114, DBUS_TYPE_ARRAY = 97,
DBUS_TYPE_DICT_ENTRY = 101, DBUS_TYPE_VARIANT = 118. -/
def dbus_type.type_code : dbus_type → Nat
| .basic b => (b.sig.toList.headD ' ').toNat
| .strct _ _ => 114
| .array _ _ _ => 97
| .dict_entry _ _ _ => 101
| .variant _ => 118

/-- Model of the virtual is_basic predicate (dbus_type_base.cpp plus the
dbus_basic override). -/
def dbus_type.is_basic : dbus_type → Bool
| .basic _ => true
| _ => false

/-- Model of the virtual is_struct predicate. -/
def dbus_type.is_struct : dbus_type → Bool
| .strct _ _ => true
| _ => false

/-- Model of the virtual is_array predicate. -/
def dbus_type.is_array : dbus_type → Bool
| .array _ _ _ => true
| _ => false

/-- Model of the virtual is_dict_entry predicate (dbus_type_base.cpp:60-63
returns false; only dbus_dict_entry overrides it to true). -/
def dbus_type.is_dict_entry : dbus_type → Bool
| .dict_entry _ _ _ => true
| _ => false

/-- Model of the virtual is_variant predicate. -/
def dbus_type.is_variant : dbus_type → Bool
| .variant _ => true
| _ => false

mutual

/-- Model of clone_dbus_type (utils.cpp:64-82): dispatch on the concrete
kind and invoke that kind's copy constructor. `none` models a crash:
dbus_variant::copy (dbus_variant.cpp:194-205) dereferences rhs.val without
a null check, so cloning a variant whose payload was never set dereferences
a null shared_ptr. The struct and array cases rebuild their elements with
the respective copy members, which re-add every element. -/
def clone_dbus_type : dbus_type → Option dbus_type
| .basic b => some (.basic b.copy_fields)
| .strct _ es =>
    match clone_struct_elements es with
    | none => none
    | some cs => some (.strct ("(" ++ String.join (cs.map dbus_type.signature) ++ ")") cs)
| .array s esig es =>
    match clone_array_elements s esig es with
    | none => none
    | some (s2, esig2, cs) => some (.array s2 esig2 cs)
| .dict_entry _ k v =>
    match v with
    | none =>
        some (.dict_entry ("\x7b" ++ (match k with | none => "" | some kb => kb.sig) ++ "\x7d")
              (k.map dbus_basic.copy_fields) none)
    | some x =>
        match clone_dbus_type x with
        | none => none
        | some c =>
            some (.dict_entry
                  ("\x7b" ++ (match k with | none => "" | some kb => kb.sig) ++ c.signature ++ "\x7d")
                  (k.map dbus_basic.copy_fields) (some c))
| .variant none => none
| .variant (some p) =>
    match clone_dbus_type p with
    | none => none
    | some c => some (.variant (some c))

/-- Model of the element loop of dbus_struct::copy (dbus_struct.cpp:199-218):
each source element is cloned by dbus_struct::add; a crash while cloning
propagates. -/
def clone_struct_elements : List dbus_type → Option (List dbus_type)
| [] => some []
| e :: es =>
    match clone_dbus_type e with
    | none => none
    | some c =>
        match clone_struct_elements es with
        | none => none
        | some cs => some (c :: cs)

/-- Model of the element loop of dbus_array::copy (dbus_array.cpp:425-443):
sig and element_sig start from the source object, then every source element
goes through dbus_array::add (dbus_array.cpp:270-286): an empty element_sig
is set from the element, a mismatching element is silently dropped (the -1
return value is ignored by the loop), a kept element is cloned. -/
def clone_array_elements : String → String → List dbus_type → Option (String × String × List dbus_type)
| s, esig, [] => some (s, esig, [])
| s, esig, e :: es =>
    if esig = "" then
      match clone_dbus_type e with
      | none => none
      | some c =>
          match clone_array_elements ("a" ++ e.signature) e.signature es with
          | none => none
          | some (s2, esig2, cs) => some (s2, esig2, c :: cs)
    else if esig ≠ e.signature then
      clone_array_elements s esig es
    else
      match clone_dbus_type e with
      | none => none
      | some c =>
          match clone_array_elements s esig es with
          | none => none
          | some (s2, esig2, cs) => some (s2, esig2, c :: cs)

end

/-- Model of class dbus_array (dbus_array.hpp/cpp): the inherited sig
member, the element signature and the element vector. -/
structure dbus_array where
  sig : String
  element_sig : String
  elements : List dbus_type

/-- Model of the dbus_array(const std::string& element_signature)
constructor (dbus_array.cpp:196-201). -/
def dbus_array.of_element_signature (esig : String) : dbus_array :=
  { sig := "a" ++ esig, element_sig := esig, elements := [] }

/-- Model of dbus_array::add (dbus_array.cpp:270-286): an empty
element_sig is fixed from the new element (updating sig), a mismatching
signature returns -1 without inserting, otherwise the element is cloned
and appended. `none` models a crash inside clone_dbus_type. -/
def dbus_array.add (a : dbus_array) (e : dbus_type) : Option (Int × dbus_array) :=
  if a.element_sig = "" then
    match clone_dbus_type e with
    | none => none
    | some c =>
        some (0, { sig := "a" ++ e.signature, element_sig := e.signature,
                   elements := a.elements ++ [c] })
  else if a.element_sig ≠ e.signature then
    some (-1, a)
  else
    match clone_dbus_type e with
    | none => none
    | some c => some (0, { a with elements := a.elements ++ [c] })

/-- Model of dbus_array::can_add (dbus_array.cpp:344-347). -/
def dbus_array.can_add (a : dbus_array) (e : dbus_type) : Bool :=
  a.elements.isEmpty || e.signature == a.element_sig

/-- Model of dbus_array::remove (dbus_array.cpp:352-360): the code forms
the iterator begin()+n and fails with -1 only when that iterator equals
end(), i.e. when n equals the element count; for n beyond the count the
iterator arithmetic and the subsequent erase are undefined behavior. -/
def dbus_array.remove (a : dbus_array) (n : Nat) : cpp_result (Int × dbus_array) :=
  if n = a.elements.length then .ok (-1, a)
  else if n < a.elements.length then
    .ok (0, { a with elements := a.elements.eraseIdx n })
  else .ub

/-- Model of dbus_array::clear(const std::string&) (dbus_array.cpp:375-380). -/
def dbus_array.clear_with (_a : dbus_array) (esig : String) : dbus_array :=
  { sig := "a" ++ esig, element_sig := esig, elements := [] }

/-- Model of dbus_array::size (dbus_array.cpp:254-257). -/
def dbus_array.size (a : dbus_array) : Nat :=
  a.elements.length

/-- Model of class dbus_struct (dbus_struct.hpp/cpp): the inherited sig
member and the member vector. -/
structure dbus_struct where
  sig : String
  elements : List dbus_type

/-- Model of the dbus_struct default constructor (dbus_struct.cpp:42-47). -/
def dbus_struct.empty : dbus_struct :=
  { sig := "()", elements := [] }

/-- Model of dbus_struct::add (dbus_struct.cpp:118-127): the member is
cloned and appended and the closing parenthesis of sig is reopened to
append the new member signature. `none` models a crash inside clone. -/
def dbus_struct.add (st : dbus_struct) (t : dbus_type) : Option dbus_struct :=
  match clone_dbus_type t with
  | none => none
  | some c =>
      some { sig := st.sig.dropRight 1 ++ c.signature ++ ")",
             elements := st.elements ++ [c] }

/-- Model of dbus_struct::remove (dbus_struct.cpp:132-144): begin()+n is
compared against end() only, so n equal to the size throws
std::out_of_range while n beyond the size is undefined behavior; on
success the member is erased and sig is re-derived from the remaining
members. -/
def dbus_struct.remove (st : dbus_struct) (n : Nat) : cpp_result dbus_struct :=
  if n = st.elements.length then .thrown
  else if n < st.elements.length then
    let rest := st.elements.eraseIdx n
    .ok { sig := "(" ++ String.join (rest.map dbus_type.signature) ++ ")",
          elements := rest }
  else .ub

/-- Model of dbus_struct::move (dbus_struct.cpp:223-239), reached by the
move constructor and the move assignment operator of dbus_struct: the
guard tests obj.is_dict_entry() — which is false for every dbus_struct —
and throws std::invalid_argument when the test fails; otherwise ownership
of sig and elements would transfer and the source would be reset to the
default, not-yet-typed struct state. -/
def dbus_struct.move (_dst src : dbus_struct) : cpp_result (dbus_struct × dbus_struct) :=
  if !(dbus_type.is_dict_entry (.strct src.sig src.elements)) then .thrown
  else .ok ({ sig := src.sig, elements := src.elements },
            { sig := "()", elements := [] })

/-- Model of assignment through a dbus_type reference
(dbus_type::operator=, dbus_type.cpp:48-54): the virtual copy member of
the destination's concrete kind runs on the source. dbus_basic::copy
throws for a non-basic source (dbus_basic.cpp:618-624); dbus_struct::copy,
dbus_array::copy and dbus_dict_entry::copy throw for a source of the wrong
kind and otherwise deep-copy exactly like the clone path;
dbus_variant::copy accepts any source, boxing a non-variant source and
stealing a copy of a variant source's payload — dereferencing a null
payload without a check. -/
def assign_dbus_type (dst src : dbus_type) : Option dbus_type :=
  match dst with
  | .basic _ =>
      match src with
      | .basic b => some (.basic b.copy_fields)
      | _ => none
  | .strct _ _ =>
      match src with
      | .strct _ _ => clone_dbus_type src
      | _ => none
  | .array _ _ _ =>
      match src with
      | .array _ _ _ => clone_dbus_type src
      | _ => none
  | .dict_entry _ _ _ =>
      match src with
      | .dict_entry _ _ _ => clone_dbus_type src
      | _ => none
  | .variant _ =>
      match src with
      | .variant none => none
      | .variant (some p) =>
          match clone_dbus_type p with
          | none => none
          | some c => some (.variant (some c))
      | _ =>
          match clone_dbus_type src with
          | none => none
          | some c => some (.variant (some c))

/-- Model of the dbus_dict_entry(const dbus_basic& key, const dbus_type&
value) constructor (dbus_dict_entry.cpp:87-91): set copies the key, clones
the value and rebuilds sig from both signatures. `none` models a crash
while cloning the value. -/
def dbus_dict_entry.make (key : dbus_basic) (value : dbus_type) : Option dbus_type :=
  match clone_dbus_type value with
  | none => none
  | some c =>
      some (.dict_entry ("\x7b" ++ key.sig ++ c.signature ++ "\x7d")
            (some key.copy_fields) (some c))

/-- Model of class Properties (Properties.hpp/cpp): a view over a
dbus_array of string-keyed dict entries with variant values; the default
constructor initializes the array with element signature \x7bsv\x7d. -/
structure Properties where
  props : dbus_array

/-- Model of the Properties default constructor (Properties.cpp:41-44). -/
def Properties.empty : Properties :=
  { props := dbus_array.of_element_signature "\x7bsv\x7d" }

/-- Model of the find loop shared by Properties::set (Properties.cpp:221-228):
every traversed element is cast to dbus_dict_entry (std::bad_cast for
another kind) and its key dereferenced; the loop stops at the first entry
whose key renders equal to the property name. `some (some i)` is the index
of that entry, `some none` means the property was not found, `none` models
the exceptional paths. -/
def Properties.find_key : List dbus_type → String → Option (Option Nat)
| [], _ => some none
| .dict_entry _ (some k) _ :: rest, property =>
    if k.str = property then some (some 0)
    else
      match Properties.find_key rest property with
      | none => none
      | some none => some none
      | some (some i) => some (some (i + 1))
| _ :: _, _ => none

/-- Model of writing through prop_val in Properties::set
(Properties.cpp:237-242): a variant source runs dbus_variant::operator=
(copy, dereferencing the source payload without a null check), any other
source is boxed by the dbus_variant converting constructor and
move-assigned into place. -/
def Properties.assign_prop_val (value : dbus_type) : Option dbus_type :=
  if value.is_variant then
    match value with
    | .variant none => none
    | .variant (some p) =>
        match clone_dbus_type p with
        | none => none
        | some c => some (.variant (some c))
    | _ => none
  else
    match clone_dbus_type value with
    | none => none
    | some c => some (.variant (some c))

/-- Model of Properties::set (Properties.cpp:215-243): find the property;
when found with a variant value, overwrite that variant in place; when the
property is absent (or the found entry's value is not a variant, leaving
prop_val null), append a new dict entry, boxing a non-variant value. -/
def Properties.set (p : Properties) (property : String) (value : dbus_type) : Option Properties :=
  match Properties.find_key p.props.elements property with
  | none => none
  | some found =>
      let add_new : Option Properties :=
        match
          (if value.is_variant then
            dbus_dict_entry.make (dbus_basic.of_string property) value
          else
            match clone_dbus_type value with
            | none => none
            | some c => dbus_dict_entry.make (dbus_basic.of_string property) (.variant (some c)))
        with
        | none => none
        | some entry =>
            match p.props.add entry with
            | none => none
            | some (_, arr) => some { props := arr }
      match found with
      | none => add_new
      | some i =>
          match p.props.elements.get? i with
          | some (.dict_entry esig (some k) (some pv)) =>
              if pv.is_variant then
                match Properties.assign_prop_val value with
                | none => none
                | some nv =>
                    some { props := { p.props with
                      elements := p.props.elements.set i (.dict_entry esig (some k) (some nv)) } }
              else
                add_new
          | some (.dict_entry _ (some _) none) => none
          | _ => none

/-- Model of the lookup loop of Properties::get (Properties.cpp:185-210):
the first entry with a matching key has its value cast to dbus_variant
(std::bad_cast otherwise) and unboxed by dbus_variant::value, which throws
when the payload was never set. Returns the unboxed payload of the first
matching entry, `some none` when no key matches, `none` on the exceptional
paths. -/
def Properties.lookup : List dbus_type → String → Option (Option dbus_type)
| [], _ => some none
| .dict_entry _ (some k) v :: rest, property =>
    if k.str = property then
      match v with
      | some (.variant (some payload)) => some (some payload)
      | some (.variant none) => none
      | _ => none
    else Properties.lookup rest property
| _ :: _, _ => none

/-- Model of Properties::get (Properties.cpp:185-210): after the lookup,
a found value is rejected with -1 when either side is non-basic and the
type codes differ, and otherwise assigned onto the destination through the
virtual copy member; an absent key returns -1 with the destination
untouched. -/
def Properties.get (p : Properties) (property : String) (value : dbus_type) :
    Option (Int × dbus_type) :=
  match Properties.lookup p.props.elements property with
  | none => none
  | some none => some (-1, value)
  | some (some val) =>
      if (!val.is_basic || !value.is_basic) && val.type_code ≠ value.type_code then
        some (-1, value)
      else
        match assign_dbus_type value val with
        | none => none
        | some v2 => some (0, v2)

/-- Model of the scan loop of Properties::remove (Properties.cpp:248-258):
the loop walks the entries, casting each to dbus_dict_entry and
dereferencing its key, and stops at the first entry whose key does NOT
render equal to the given property name, yielding that entry's index; it
yields nothing when every key matches (in particular for a one-entry map
holding exactly the named property). `none` models the exceptional paths.
-/
def Properties.remove_scan : List dbus_type → Nat → String → Option (Option Nat)
| [], _, _ => some none
| .dict_entry _ (some k) _ :: rest, i, property =>
    if k.str ≠ property then some (some i)
    else Properties.remove_scan rest (i + 1) property
| _ :: _, _, _ => none

/-- Model of Properties::remove (Properties.cpp:248-258): the first entry
whose key does not match is erased through dbus_array::remove and the loop
breaks; with every key matching, nothing is removed. -/
def Properties.remove (p : Properties) (property : String) : Option Properties :=
  match Properties.remove_scan p.props.elements 0 property with
  | none => none
  | some none => some p
  | some (some i) =>
      match p.props.remove i with
      | .ok (_, arr) => some { props := arr }
      | _ => none

/-- Model of Properties::reset (Properties.cpp:271-279): a dict whose
signature is not a\x7bsv\x7d clears the map and returns -1; otherwise the
inner array deep-copies the dict through the dbus_array converting
constructor and move assignment. -/
def Properties.reset (_p : Properties) (dict : dbus_type) : Option (Int × Properties) :=
  if dict.signature ≠ "a\x7bsv\x7d" then
    some (-1, { props := dbus_array.of_element_signature "\x7bsv\x7d" })
  else
    match dict with
    | .array s esig es =>
        match clone_array_elements s esig es with
        | none => none
        | some (s2, esig2, cs) =>
            some (0, { props := { sig := s2, element_sig := esig2, elements := cs } })
    | _ => none

/-- Destination slot passed to Message::get_args: either a pointer to a
plain dbus_type object or a pointer to a Properties object (distinguished
in the source by typeid, Message.cpp:476). -/
inductive arg_dest where
| plain (v : dbus_type)
| props (p : Properties)

/-- Signature of a destination slot, used to compare states before and
after a get_args call. -/
def arg_dest.signature : arg_dest → String
| .plain v => v.signature
| .props p => p.props.sig

/-- Model of the matching loop of Message::get_args (Message.cpp:460-499):
the decoded arguments are walked positionally against the destination
list; a null decoded argument returns false at once; a Properties
destination demands signature a\x7bsv\x7d and is reset from the argument;
any other destination must be basic together with the argument or share
its exact type code, and is then assigned through the virtual copy member.
On a mismatch the loop stops with false — destinations already assigned in
earlier iterations keep their new values. The function returns the flag
together with the final destination list; `none` models a crash inside an
assignment. -/
def Message.get_args : List (Option dbus_type) → List arg_dest → Option (Bool × List arg_dest)
| [], dests => some (true, dests)
| _ :: _, [] => some (true, [])
| none :: _, d :: ds => some (false, d :: ds)
| some param :: params, .props pr :: ds =>
    if param.signature ≠ "a\x7bsv\x7d" then some (false, .props pr :: ds)
    else
      match Properties.reset pr param with
      | none => none
      | some (_, pr2) =>
          match Message.get_args params ds with
          | none => none
          | some (r, ds2) => some (r, .props pr2 :: ds2)
| some param :: params, .plain d :: ds =>
    if !(d.is_basic && param.is_basic) && d.type_code ≠ param.type_code then
      some (false, .plain d :: ds)
    else
      match assign_dbus_type d param with
      | none => none
      | some d2 =>
          match Message.get_args params ds with
          | none => none
          | some (r, ds2) => some (r, .plain d2 :: ds2)

/-- Reply delivered to a callback: whether it is an error-kind message and
its error name; a synthesized local error reply carries the name set in
Connection::send (Connection.cpp:270). -/
structure local_reply where
  is_error : Bool
  error_name : String
deriving DecidableEq, Repr

/-- State of a Connection (Connection.hpp): whether conn is non-null, the
pending-request table pending_messages (a std::map from the opaque
DBusPendingCall handle to the stored reply callback, identified here by
numbers), and the watch/timer registries io_watches, io_timeouts and the
TimerSet io_timers. -/
structure conn_state where
  conn : Bool
  pending : List (Nat × Nat)
  io_watches : List Nat
  io_timeouts : List (Nat × Int)
  io_timers : List Nat
deriving DecidableEq, Repr

/-- Lookup in the pending-request table (std::map::find). -/
def pending_find (l : List (Nat × Nat)) (h : Nat) : Option Nat :=
  match l.find? (fun e => e.1 = h) with
  | none => none
  | some e => some e.2

/-- Erasure from the pending-request table (std::map::erase of the found
entry; a std::map holds at most one entry per key). -/
def pending_erase (l : List (Nat × Nat)) (h : Nat) : List (Nat × Nat) :=
  l.filter (fun e => e.1 ≠ h)

/-- Insertion into the pending-request table (std::map::emplace: inserts
only when the key is absent). -/
def pending_emplace (l : List (Nat × Nat)) (h cb : Nat) : List (Nat × Nat) :=
  if (pending_find l h).isSome then l else l ++ [(h, cb)]

/-- Model of Connection::disconnect (Connection.cpp:174-202): a null conn
returns at once; otherwise the transport reference is dropped, every
pending entry is unreferenced and the table cleared without invoking any
callback, the watch and timer registries are cleared and conn is reset. -/
def conn_state.disconnect (s : conn_state) : conn_state :=
  if !s.conn then s
  else { conn := false, pending := [], io_watches := [], io_timeouts := [], io_timers := [] }

/-- Model of Connection::dbus_pending_msg_cb (Connection.cpp:422-445):
under the table mutex the entry for the completed handle is looked up —
returning silently when absent — and erased before the lock is released;
only then is the reply stolen, the handle unreferenced and the stored
callback invoked. The first component is the state observed by the
callback, the second lists the (handle, callback) invocation performed. -/
def conn_state.pending_msg_cb (s : conn_state) (h : Nat) : conn_state × List (Nat × Nat) :=
  match pending_find s.pending h with
  | none => (s, [])
  | some cb => ({ s with pending := pending_erase s.pending h }, [(h, cb)])

/-- Model of the reactor-context branch of Connection::send with a reply
callback (Connection.cpp:243-254): the transport outcome of
dbus_connection_send_with_reply is `none` when the send is rejected
(!result || !pending), in which case send returns -1 without touching the
table and without invoking the callback; an accepted send registers the
pending entry and returns 0. The last component lists the callback
invocations performed by the call itself. -/
def conn_state.send_same_context (s : conn_state) (transport : Option Nat) (cb : Nat) :
    conn_state × Int × List (Nat × local_reply) :=
  match transport with
  | none => (s, -1, [])
  | some handle => ({ s with pending := pending_emplace s.pending handle cb }, 0, [])

/-- Model of the deferred task enqueued by Connection::send when called
off the reactor context (Connection.cpp:256-278): a rejected transport
send synthesizes a local error reply named
se.ultramarin.ultrabus.Error.ENOMEM and invokes the callback once,
synchronously within the task; an accepted send registers the pending
entry. -/
def conn_state.send_deferred_task (s : conn_state) (transport : Option Nat) (cb : Nat) :
    conn_state × List (Nat × local_reply) :=
  match transport with
  | none =>
      (s, [(cb, { is_error := true, error_name := "se.ultramarin.ultrabus.Error.ENOMEM" })])
  | some handle => ({ s with pending := pending_emplace s.pending handle cb }, [])

/-- Events observed by the pending-request table, serialized by
pending_msg_mutex: a reactor-context send accepted by the transport, a
completion notification from the transport for a handle, and a disconnect.
-/
inductive conn_event where
| send_ok (h cb : Nat)
| complete (h : Nat)
| disconnect
deriving DecidableEq, Repr

/-- One serialized step of the connection: the successor state and the
callback invocations ((handle, callback) pairs) it performs. -/
def conn_state.step (s : conn_state) : conn_event → conn_state × List (Nat × Nat)
| .send_ok h cb => ({ s with pending := pending_emplace s.pending h cb }, [])
| .complete h => s.pending_msg_cb h
| .disconnect => (s.disconnect, [])

/-- Run of a serialized event trace, accumulating every callback
invocation in order. -/
def conn_state.run (s : conn_state) : List conn_event → conn_state × List (Nat × Nat)
| [] => (s, [])
| e :: es =>
    let st := s.step e
    let rest := st.1.run es
    (rest.1, st.2 ++ rest.2)

/-- Callback invocations belonging to the request with handle h. -/
def fires_for (h : Nat) (l : List (Nat × Nat)) : List (Nat × Nat) :=
  l.filter (fun e => e.1 = h)

/-- Send events of a trace that register the handle h. -/
def send_oks_for (h : Nat) (tr : List conn_event) : List conn_event :=
  tr.filter (fun e => match e with | .send_ok h2 _ => h2 = h | _ => false)

/-- Multiplicity of handle h in a pending-request table. -/
def pending_count (h : Nat) (l : List (Nat × Nat)) : Nat :=
  (l.filter (fun e => e.1 = h)).length

/-- Mismatch test of one get_args position (Message.cpp:468-489): a null
decoded argument, a Properties destination whose argument is not an
a\x7bsv\x7d dict, or a plain destination that is neither basic-with-basic
nor of the argument's exact type code. -/
def get_args_mismatch : Option dbus_type → arg_dest → Bool
| none, _ => true
| some param, .props _ => param.signature ≠ "a\x7bsv\x7d"
| some param, .plain d => !(d.is_basic && param.is_basic) && d.type_code ≠ param.type_code

/-- C2: the dbus_struct move path (dbus_struct.cpp:223-239, reached by the
move constructor and move assignment) never succeeds on a struct source:
its guard tests is_dict_entry, which is false for every dbus_struct, so
std::invalid_argument is thrown instead of transferring the elements and
signature and resetting the source — the code contradicts the move
semantics the specification states. -/
theorem C2_struct_move_always_throws (dst src : dbus_struct) :
    dbus_struct.move dst src = .thrown := rfl

/-- C6: cloning a variant whose payload was never set crashes instead of
producing a copy with equal signature: clone_dbus_type dispatches to
dbus_variant::copy (dbus_variant.cpp:194-205), which dereferences the null
payload pointer without the null check its move counterpart performs, so
no clone with signature "v" is ever produced for this value. -/
theorem C6_clone_unset_variant_crashes :
    clone_dbus_type (.variant none) = none ∧
    (dbus_type.variant none).signature = "v" ∧
    (∀ c, clone_dbus_type (.variant none) = some c → False) := by
  refine ⟨rfl, rfl, ?_⟩
  intro c hc
  simp [clone_dbus_type] at hc

/-- C9: the bounds check of dbus_array::remove (dbus_array.cpp:352-360)
and dbus_struct::remove (dbus_struct.cpp:132-144) compares begin()+n with
end() only, so an index equal to the size fails cleanly (-1, respectively
std::out_of_range) but any larger index reaches invalid iterator
arithmetic and an erase of an invalid iterator — undefined behavior rather
than the documented out-of-bounds failure; a successful struct removal
re-derives the signature from the remaining members. -/
theorem C9_remove_bounds_check_gap :
    (dbus_array.remove ⟨"ai", "i", [.basic (dbus_basic.of_i32 5)]⟩ 2 = .ub) ∧
    (dbus_array.remove ⟨"ai", "i", [.basic (dbus_basic.of_i32 5)]⟩ 1 =
       .ok (-1, ⟨"ai", "i", [.basic (dbus_basic.of_i32 5)]⟩)) ∧
    (dbus_array.remove ⟨"ai", "i", [.basic (dbus_basic.of_i32 5)]⟩ 0 =
       .ok (0, ⟨"ai", "i", []⟩)) ∧
    (dbus_struct.remove ⟨"(i)", [.basic (dbus_basic.of_i32 5)]⟩ 3 = .ub) ∧
    (dbus_struct.remove ⟨"(i)", [.basic (dbus_basic.of_i32 5)]⟩ 1 = .thrown) ∧
    (dbus_struct.remove ⟨"(is)", [.basic (dbus_basic.of_i32 5), .basic (dbus_basic.of_string "x")]⟩ 0 =
       .ok ⟨"(s)", [.basic (dbus_basic.of_string "x")]⟩) :=
  ⟨rfl, rfl, rfl, rfl, rfl, rfl⟩

/-- C5: adding an element whose signature differs from the element
signature of a non-empty array fails with -1 and leaves the array — its
signature, element signature, elements and hence size — unchanged
(dbus_array.cpp:270-286). -/
theorem C5_array_add_mismatch_rejected (a : dbus_array) (e : dbus_type)
    (h1 : a.elements ≠ [])
    (h2 : a.element_sig ≠ "")
    (h3 : ∀ x ∈ a.elements, x.signature = a.element_sig)
    (h4 : e.signature ≠ a.element_sig) :
    a.add e = some (-1, a) ∧ (a.add e).map (fun r => r.2.size) = some a.size := by
  have hadd : a.add e = some (-1, a) := by
    unfold dbus_array.add
    rw [if_neg h2, if_pos (Ne.symm h4)]
  exact ⟨hadd, by rw [hadd]; rfl⟩

/-- Witness for C5 at a one-element string array and an int32 element. -/
theorem C5_array_add_mismatch_rejected_witness :
    dbus_array.add ⟨"as", "s", [.basic (dbus_basic.of_string "x")]⟩ (.basic (dbus_basic.of_i32 1)) =
      some (-1, ⟨"as", "s", [.basic (dbus_basic.of_string "x")]⟩) :=
  (C5_array_add_mismatch_rejected ⟨"as", "s", [.basic (dbus_basic.of_string "x")]⟩
    (.basic (dbus_basic.of_i32 1))
    (by simp)
    (by decide)
    (by intro x hx; simp at hx; subst hx; rfl)
    (by decide)).1

/-- C10: an empty array whose element signature was fixed at construction
accepts every element according to can_add (dbus_array.cpp:344-347, which
only inspects emptiness), yet add (dbus_array.cpp:270-286) rejects every
element of a different signature, so can_add is not a sufficient
precondition for add — witnessed concretely by an empty "s"-array and an
int32 element. -/
theorem C10_can_add_not_sufficient (esig : String) (h : esig ≠ "") :
    (∀ e, (dbus_array.of_element_signature esig).can_add e = true) ∧
    (∀ e, e.signature ≠ esig →
        (dbus_array.of_element_signature esig).add e =
          some (-1, dbus_array.of_element_signature esig)) ∧
    ((dbus_array.of_element_signature "s").can_add (.basic (dbus_basic.of_i32 1)) = true ∧
     (dbus_array.of_element_signature "s").add (.basic (dbus_basic.of_i32 1)) =
       some (-1, dbus_array.of_element_signature "s")) := by
  refine ⟨fun e => rfl, fun e he => ?_, rfl, rfl⟩
  unfold dbus_array.add dbus_array.of_element_signature
  rw [if_neg h, if_pos (Ne.symm he)]

/-- Witness for C10 at element signature "s". -/
theorem C10_can_add_not_sufficient_witness :
    (dbus_array.of_element_signature "s").can_add (.basic (dbus_basic.of_i32 1)) = true ∧
    (dbus_array.of_element_signature "s").add (.basic (dbus_basic.of_i32 1)) =
      some (-1, dbus_array.of_element_signature "s") :=
  (C10_can_add_not_sufficient "s" (by decide)).2.2

/-- C8 counterexample: a reactor-context send whose transport rejects it
(dbus_connection_send_with_reply yields no pending handle,
Connection.cpp:243-252) returns -1 and performs no callback invocation at
all — the callback list is empty, refuting "the supplied callback is
invoked exactly once" for this rejected send. -/
theorem C8_same_context_rejection_no_callback :
    conn_state.send_same_context ⟨true, [], [], [], []⟩ none 7 =
      (⟨true, [], [], [], []⟩, -1, []) := rfl

/-- C8 amended: a transport-rejected send invokes the callback once,
synchronously, with the synthesized local ENOMEM error reply only on the
deferred (non-reactor-context) path (Connection.cpp:256-278); on the
reactor-context path (Connection.cpp:243-252) rejection is reported by the
-1 return value and the callback is not invoked; in both cases the
pending-request table is untouched. -/
theorem C8_rejection_paths (s : conn_state) (cb : Nat) :
    conn_state.send_deferred_task s none cb =
      (s, [(cb, { is_error := true, error_name := "se.ultramarin.ultrabus.Error.ENOMEM" })]) ∧
    conn_state.send_same_context s none cb = (s, -1, []) :=
  ⟨rfl, rfl⟩

/-- C1: on the Properties map produced by set("mykey", int32 42) from the
empty map, get("mykey") succeeds with the stored value — but
Properties::remove (Properties.cpp:248-258) erases the first entry whose
key does NOT match the argument (the comparison is inverted), so
remove("mykey") on the one-entry map removes nothing and get("mykey")
still succeeds afterwards; on a two-entry map, remove("other") erases the
unrelated "mykey" entry instead. -/
theorem C1_properties_set_get_remove :
    Properties.set Properties.empty "mykey" (.basic (dbus_basic.of_i32 42)) =
      some ⟨⟨"a\x7bsv\x7d", "\x7bsv\x7d",
        [.dict_entry "\x7bsv\x7d" (some ⟨"s", "mykey", 0⟩)
          (some (.variant (some (.basic ⟨"i", "", 42⟩))))]⟩⟩ ∧
    Properties.get
      ⟨⟨"a\x7bsv\x7d", "\x7bsv\x7d",
        [.dict_entry "\x7bsv\x7d" (some ⟨"s", "mykey", 0⟩)
          (some (.variant (some (.basic ⟨"i", "", 42⟩))))]⟩⟩
      "mykey" (.basic (dbus_basic.of_i32 0)) = some (0, .basic ⟨"i", "", 42⟩) ∧
    Properties.remove
      ⟨⟨"a\x7bsv\x7d", "\x7bsv\x7d",
        [.dict_entry "\x7bsv\x7d" (some ⟨"s", "mykey", 0⟩)
          (some (.variant (some (.basic ⟨"i", "", 42⟩))))]⟩⟩
      "mykey" =
      some ⟨⟨"a\x7bsv\x7d", "\x7bsv\x7d",
        [.dict_entry "\x7bsv\x7d" (some ⟨"s", "mykey", 0⟩)
          (some (.variant (some (.basic ⟨"i", "", 42⟩))))]⟩⟩ ∧
    Properties.remove
      ⟨⟨"a\x7bsv\x7d", "\x7bsv\x7d",
        [.dict_entry "\x7bsv\x7d" (some ⟨"s", "mykey", 0⟩)
          (some (.variant (some (.basic ⟨"i", "", 42⟩)))),
         .dict_entry "\x7bsv\x7d" (some ⟨"s", "other", 0⟩)
          (some (.variant (some (.basic ⟨"i", "", 7⟩))))]⟩⟩
      "other" =
      some ⟨⟨"a\x7bsv\x7d", "\x7bsv\x7d",
        [.dict_entry "\x7bsv\x7d" (some ⟨"s", "other", 0⟩)
          (some (.variant (some (.basic ⟨"i", "", 7⟩))))]⟩⟩ :=
  ⟨rfl, rfl, rfl, rfl⟩

/-- C7 counterexample: get_args on arguments [int32 1, int32 2] against
destinations [int32 0, empty struct] fails at position 1 (struct against
basic), yet returns with the first destination already overwritten by
int32 1 — the failure is not free of partial application. -/
theorem C7_get_args_overwrites_earlier_dest :
    Message.get_args
        [some (.basic (dbus_basic.of_i32 1)), some (.basic (dbus_basic.of_i32 2))]
        [.plain (.basic (dbus_basic.of_i32 0)), .plain (.strct "()" [])] =
      some (false, [.plain (.basic (dbus_basic.of_i32 1)), .plain (.strct "()" [])]) ∧
    dbus_basic.of_i32 1 ≠ dbus_basic.of_i32 0 :=
  ⟨rfl, by decide⟩

/-- C7 amended: whenever get_args returns failure, there is a first
position k at which the decoded argument does not structurally match its
destination (every earlier position matched); the mismatching destination
and every destination after it are returned unchanged, while destinations
before position k keep the values already assigned to them
(Message.cpp:460-499). -/
theorem C7_get_args_fails_at_first_mismatch
    (params : List (Option dbus_type)) (dests ds2 : List arg_dest)
    (h : Message.get_args params dests = some (false, ds2)) :
    ∃ k, k < params.length ∧ k < dests.length ∧
      get_args_mismatch (params.getD k none) (dests.getD k (.plain (.variant none))) = true ∧
      (∀ j, j < k →
        get_args_mismatch (params.getD j none) (dests.getD j (.plain (.variant none))) = false) ∧
      ds2.drop k = dests.drop k := by
  induction params generalizing dests ds2 with
  | nil => simp [Message.get_args] at h
  | cons p ps ih =>
    cases dests with
    | nil => simp [Message.get_args] at h
    | cons d ds =>
      cases p with
      | none =>
        simp only [Message.get_args, Option.some.injEq, Prod.mk.injEq] at h
        refine ⟨0, by simp, by simp, rfl, by omega, ?_⟩
        simp [← h.2]
      | some param =>
        cases d with
        | props pr =>
          by_cases hsig : param.signature = "a\x7bsv\x7d"
          · simp only [Message.get_args, hsig, ne_eq, not_true_eq_false, if_false] at h
            cases hr : Properties.reset pr param with
            | none => rw [hr] at h; exact absurd h (by simp)
            | some r0 =>
              rw [hr] at h
              cases hg : Message.get_args ps ds with
              | none => rw [hg] at h; exact absurd h (by simp)
              | some g =>
                rw [hg] at h
                obtain ⟨r, ds2x⟩ := g
                simp only [Option.some.injEq, Prod.mk.injEq] at h
                obtain ⟨hz, hlist⟩ := h
                subst hz
                obtain ⟨k, hk1, hk2, hk3, hk4, hk5⟩ := ih ds ds2x hg
                refine ⟨k + 1, by simpa using hk1, by simpa using hk2, by simpa using hk3, ?_, ?_⟩
                · intro j hj
                  cases j with
                  | zero => simp [get_args_mismatch, hsig]
                  | succ j2 => simpa using hk4 j2 (by omega)
                · rw [← hlist]
                  simpa using hk5
          · refine ⟨0, by simp, by simp, by simp [get_args_mismatch, hsig], by omega, ?_⟩
            simp only [Message.get_args, ne_eq, hsig, not_false_eq_true, if_true,
              Option.some.injEq, Prod.mk.injEq] at h
            simp [← h.2]
        | plain dv =>
          by_cases hmis : (!(dv.is_basic && param.is_basic) &&
              dv.type_code ≠ param.type_code) = true
          · refine ⟨0, by simp, by simp, by simpa [get_args_mismatch] using hmis, by omega, ?_⟩
            simp only [Message.get_args, hmis, if_true, Option.some.injEq, Prod.mk.injEq] at h
            simp [← h.2]
          · simp only [Message.get_args, hmis, if_false] at h
            cases ha : assign_dbus_type dv param with
            | none => rw [ha] at h; exact absurd h (by simp)
            | some d2 =>
              rw [ha] at h
              cases hg : Message.get_args ps ds with
              | none => rw [hg] at h; exact absurd h (by simp)
              | some g =>
                rw [hg] at h
                obtain ⟨r, ds2x⟩ := g
                simp only [Bool.false_eq_true, if_false, Option.some.injEq, Prod.mk.injEq] at h
                obtain ⟨hz, hlist⟩ := h
                subst hz
                obtain ⟨k, hk1, hk2, hk3, hk4, hk5⟩ := ih ds ds2x hg
                refine ⟨k + 1, by simpa using hk1, by simpa using hk2, by simpa using hk3, ?_, ?_⟩
                · intro j hj
                  cases j with
                  | zero => simpa [get_args_mismatch] using hmis
                  | succ j2 => simpa using hk4 j2 (by omega)
                · rw [← hlist]
                  simpa using hk5

/-- Witness for the amended C7 at the two-argument counterexample input:
the first mismatch is at position 1 and the destinations from position 1
on are unchanged. -/
theorem C7_get_args_fails_at_first_mismatch_witness :
    ∃ k, k < ([some (.basic (dbus_basic.of_i32 1)),
               some (.basic (dbus_basic.of_i32 2))] : List (Option dbus_type)).length ∧
      k < ([.plain (.basic (dbus_basic.of_i32 0)),
            .plain (.strct "()" [])] : List arg_dest).length ∧
      get_args_mismatch
        (([some (.basic (dbus_basic.of_i32 1)), some (.basic (dbus_basic.of_i32 2))] :
           List (Option dbus_type)).getD k none)
        (([.plain (.basic (dbus_basic.of_i32 0)), .plain (.strct "()" [])] :
           List arg_dest).getD k (.plain (.variant none))) = true ∧
      (∀ j, j < k →
        get_args_mismatch
          (([some (.basic (dbus_basic.of_i32 1)), some (.basic (dbus_basic.of_i32 2))] :
             List (Option dbus_type)).getD j none)
          (([.plain (.basic (dbus_basic.of_i32 0)), .plain (.strct "()" [])] :
             List arg_dest).getD j (.plain (.variant none))) = false) ∧
      ([.plain (.basic (dbus_basic.of_i32 1)), .plain (.strct "()" [])] :
         List arg_dest).drop k =
        ([.plain (.basic (dbus_basic.of_i32 0)), .plain (.strct "()" [])] :
         List arg_dest).drop k :=
  C7_get_args_fails_at_first_mismatch
    [some (.basic (dbus_basic.of_i32 1)), some (.basic (dbus_basic.of_i32 2))]
    [.plain (.basic (dbus_basic.of_i32 0)), .plain (.strct "()" [])]
    [.plain (.basic (dbus_basic.of_i32 1)), .plain (.strct "()" [])]
    rfl

/-- Helper: erasing a handle from the pending-request table leaves no
entry for that handle. -/
theorem pending_count_erase_self (l : List (Nat × Nat)) (h : Nat) :
    pending_count h (pending_erase l h) = 0 := by
  induction l with
  | nil => rfl
  | cons e es ih =>
    by_cases he : e.1 = h
    · simpa [pending_erase, pending_count, he] using ih
    · simpa [pending_erase, pending_count, he] using ih

/-- Helper: one-step unfolding of the multiplicity of a handle. -/
theorem pending_count_cons (e : Nat × Nat) (l : List (Nat × Nat)) (h : Nat) :
    pending_count h (e :: l) =
      (if e.1 = h then 1 else 0) + pending_count h l := by
  by_cases hx : e.1 = h
  · simp [pending_count, hx, Nat.add_comm]
  · simp [pending_count, hx]

/-- Helper: one-step unfolding of erasure from the table. -/
theorem pending_erase_cons (e : Nat × Nat) (l : List (Nat × Nat)) (h2 : Nat) :
    pending_erase (e :: l) h2 =
      if e.1 = h2 then pending_erase l h2 else e :: pending_erase l h2 := by
  by_cases hx : e.1 = h2
  · simp [pending_erase, hx]
  · simp [pending_erase, hx]

/-- Helper: erasing one handle does not change the multiplicity of any
other handle. -/
theorem pending_count_erase_ne (l : List (Nat × Nat)) (h h2 : Nat) (hne : h ≠ h2) :
    pending_count h (pending_erase l h2) = pending_count h l := by
  induction l with
  | nil => rfl
  | cons e es ih =>
    rw [pending_erase_cons, pending_count_cons]
    by_cases hx : e.1 = h2
    · have h3 : ¬ e.1 = h := by rw [hx]; exact fun hy => hne hy.symm
      rw [if_pos hx, if_neg h3, ih]
      omega
    · rw [if_neg hx, pending_count_cons, ih]

/-- Helper: emplacing raises the multiplicity of a handle by at most one,
and only for the emplaced handle. -/
theorem pending_count_emplace_le (l : List (Nat × Nat)) (h h2 cb : Nat) :
    pending_count h (pending_emplace l h2 cb) ≤
      pending_count h l + (if h2 = h then 1 else 0) := by
  unfold pending_emplace
  by_cases hp : (pending_find l h2).isSome
  · rw [if_pos hp]
    split <;> omega
  · rw [if_neg hp]
    by_cases he : h2 = h
    · rw [if_pos he]
      simp [pending_count, he]
    · rw [if_neg he]
      simp [pending_count, he]

/-- Helper: a successful lookup implies at least one entry for the
handle. -/
theorem pending_find_count_pos (l : List (Nat × Nat)) (h cb : Nat)
    (hf : pending_find l h = some cb) : 1 ≤ pending_count h l := by
  induction l with
  | nil => simp [pending_find] at hf
  | cons e es ih =>
    rw [pending_count_cons]
    by_cases he : e.1 = h
    · rw [if_pos he]; omega
    · rw [pending_find] at hf
      rw [List.find?_cons_of_neg _ (by simpa using he)] at hf
      have := ih (by rw [pending_find]; exact hf)
      rw [if_neg he]
      omega

/-- Helper: per-step accounting of the pending-request table — the number
of callbacks a step fires for a handle plus the handle's multiplicity
afterwards never exceeds its multiplicity before plus the registrations
the step performs for it. -/
theorem conn_step_bound (s : conn_state) (e : conn_event) (h : Nat) :
    (fires_for h (s.step e).2).length + pending_count h (s.step e).1.pending ≤
      pending_count h s.pending + (send_oks_for h [e]).length := by
  cases e with
  | send_ok h2 cb =>
    have hstep : s.step (conn_event.send_ok h2 cb) =
        ({ s with pending := pending_emplace s.pending h2 cb }, []) := rfl
    rw [hstep]
    have hc := pending_count_emplace_le s.pending h h2 cb
    have hsend : (send_oks_for h [conn_event.send_ok h2 cb]).length =
        (if h2 = h then 1 else 0) := by
      by_cases hx : h2 = h
      · simp [send_oks_for, hx]
      · simp [send_oks_for, hx]
    rw [hsend]
    have hfa : fires_for h ([] : List (Nat × Nat)) = [] := rfl
    simp only [hfa, List.length_nil, Nat.zero_add]
    exact hc
  | disconnect =>
    have hstep : s.step conn_event.disconnect = (s.disconnect, []) := rfl
    rw [hstep]
    have hsend : (send_oks_for h [conn_event.disconnect]).length = 0 := by
      simp [send_oks_for]
    rw [hsend]
    have hfa : fires_for h ([] : List (Nat × Nat)) = [] := rfl
    simp only [hfa, List.length_nil, Nat.zero_add, Nat.add_zero]
    unfold conn_state.disconnect
    split
    · exact le_refl _
    · simp [pending_count]
  | complete h2 =>
    have hstep : s.step (conn_event.complete h2) = s.pending_msg_cb h2 := rfl
    rw [hstep]
    have hsend : (send_oks_for h [conn_event.complete h2]).length = 0 := by
      simp [send_oks_for]
    rw [hsend, Nat.add_zero]
    cases hf : pending_find s.pending h2 with
    | none =>
      have hcb : s.pending_msg_cb h2 = (s, []) := by
        unfold conn_state.pending_msg_cb
        rw [hf]
      rw [hcb]
      simp [fires_for]
    | some cb =>
      have hcb : s.pending_msg_cb h2 =
          ({ s with pending := pending_erase s.pending h2 }, [(h2, cb)]) := by
        unfold conn_state.pending_msg_cb
        rw [hf]
      rw [hcb]
      by_cases he : h2 = h
      · subst he
        have h1 := pending_count_erase_self s.pending h2
        have h2p := pending_find_count_pos s.pending h2 cb hf
        have hfa : (fires_for h2 [(h2, cb)]).length = 1 := by simp [fires_for]
        rw [hfa]
        simp only [h1]
        omega
      · have h1 := pending_count_erase_ne s.pending h h2 (Ne.symm he)
        have hfa : (fires_for h [(h2, cb)]).length = 0 := by
          simp [fires_for, he]
        rw [hfa, h1]
        omega

/-- Helper bound: over any serialized event trace, the number of callback
invocations attributed to a handle never exceeds the handle's multiplicity
in the initial pending-request table plus the number of sends that
registered it during the trace. -/
theorem conn_run_fires_bound (tr : List conn_event) (s : conn_state) (h : Nat) :
    (fires_for h (s.run tr).2).length ≤
      pending_count h s.pending + (send_oks_for h tr).length := by
  induction tr generalizing s with
  | nil => simp [conn_state.run, fires_for]
  | cons e es ih =>
    have hrun : (s.run (e :: es)).2 = (s.step e).2 ++ ((s.step e).1.run es).2 := rfl
    rw [hrun]
    have hsplit : fires_for h ((s.step e).2 ++ ((s.step e).1.run es).2) =
        fires_for h (s.step e).2 ++ fires_for h ((s.step e).1.run es).2 := by
      simp [fires_for]
    rw [hsplit, List.length_append]
    have hstep := conn_step_bound s e h
    have hb := ih (s.step e).1
    have hsend : send_oks_for h (e :: es) = send_oks_for h [e] ++ send_oks_for h es := by
      unfold send_oks_for
      rw [← List.filter_append]
      rfl
    rw [hsend, List.length_append]
    omega

/-- Helper: a failed lookup means the handle has no entry. -/
theorem pending_count_eq_zero_of_find_none (l : List (Nat × Nat)) (h : Nat)
    (hf : pending_find l h = none) : pending_count h l = 0 := by
  induction l with
  | nil => rfl
  | cons e es ih =>
    rw [pending_count_cons]
    by_cases he : e.1 = h
    · rw [pending_find] at hf
      rw [List.find?_cons_of_pos _ (by simpa using he)] at hf
      simp at hf
    · rw [pending_find] at hf
      rw [List.find?_cons_of_neg _ (by simpa using he)] at hf
      rw [if_neg he, ih (by rw [pending_find]; exact hf)]

/-- C3: completion delivery removes the pending entry before invoking the
callback, so the state observed by the callback holds no entry for its own
handle; over any serialized trace a handle registered at most once fires
its callback at most once; and after a disconnect no callback of a handle
fires unless a later send re-registers that handle
(Connection.cpp:422-445, 174-202, 243-254). -/
theorem C3_pending_callback_once_and_removed_first :
    (∀ (s : conn_state) (h : Nat),
      pending_count h ((s.pending_msg_cb h).1.pending) = 0) ∧
    (∀ (s : conn_state) (tr : List conn_event) (h : Nat),
      pending_count h s.pending = 0 → (send_oks_for h tr).length ≤ 1 →
      (fires_for h ((s.run tr).2)).length ≤ 1) ∧
    (∀ (s : conn_state) (tr : List conn_event) (h : Nat),
      s.conn = true → send_oks_for h tr = [] →
      fires_for h (((s.disconnect).run tr).2) = []) := by
  refine ⟨?_, ?_, ?_⟩
  · intro s h
    unfold conn_state.pending_msg_cb
    cases hf : pending_find s.pending h with
    | none => exact pending_count_eq_zero_of_find_none s.pending h hf
    | some cb => exact pending_count_erase_self s.pending h
  · intro s tr h hc hs
    have := conn_run_fires_bound tr s h
    omega
  · intro s tr h hconn hs
    have hb := conn_run_fires_bound tr s.disconnect h
    have hp : s.disconnect.pending = [] := by
      unfold conn_state.disconnect
      rw [hconn]
      simp
    rw [hp] at hb
    rw [hs] at hb
    simp only [pending_count, List.filter_nil, List.length_nil, Nat.add_zero,
      Nat.le_zero] at hb
    exact List.length_eq_zero.mp hb

/-- Witness for C3: a one-entry table completed twice fires once with the
entry already gone; a fresh connection with one send and two completions
of the same handle fires at most once; a connected state with two
outstanding requests fires nothing after disconnect. -/
theorem C3_pending_callback_once_and_removed_first_witness :
    pending_count 1 ((conn_state.pending_msg_cb ⟨true, [(1, 10)], [], [], []⟩ 1).1.pending) = 0 ∧
    (fires_for 1 ((conn_state.run ⟨true, [], [], [], []⟩
        [.send_ok 1 10, .complete 1, .complete 1]).2)).length ≤ 1 ∧
    fires_for 1 (((conn_state.disconnect ⟨true, [(1, 10), (2, 20)], [], [], []⟩).run
        [.complete 1, .complete 2]).2) = [] :=
  ⟨C3_pending_callback_once_and_removed_first.1 ⟨true, [(1, 10)], [], [], []⟩ 1,
   C3_pending_callback_once_and_removed_first.2.1 ⟨true, [], [], [], []⟩
     [.send_ok 1 10, .complete 1, .complete 1] 1 rfl (by decide),
   C3_pending_callback_once_and_removed_first.2.2 ⟨true, [(1, 10), (2, 20)], [], [], []⟩
     [.complete 1, .complete 2] 1 rfl rfl⟩

/-- C4: disconnect is idempotent — a second call on a disconnected
connection returns at once and changes nothing; disconnecting a connected
state empties the pending-request table and the watch/timer registries;
the disconnect step itself fires no callback; and the callbacks of
requests outstanding at disconnect time never fire afterwards, whatever
completions arrive, as long as their handle is not re-registered
(Connection.cpp:174-202). -/
theorem C4_disconnect_idempotent_clears_and_drops :
    (∀ s : conn_state, s.disconnect.disconnect = s.disconnect) ∧
    (∀ s : conn_state, s.conn = true →
      s.disconnect.conn = false ∧ s.disconnect.pending = [] ∧
      s.disconnect.io_watches = [] ∧ s.disconnect.io_timeouts = [] ∧
      s.disconnect.io_timers = []) ∧
    (∀ s : conn_state, s.step .disconnect = (s.disconnect, [])) ∧
    (∀ (s : conn_state) (tr : List conn_event) (h : Nat),
      s.conn = true → send_oks_for h tr = [] →
      fires_for h ((s.disconnect.run tr).2) = []) := by
  refine ⟨?_, ?_, fun s => rfl, ?_⟩
  · intro s
    by_cases hs : s.conn
    · simp [conn_state.disconnect, hs]
    · simp [conn_state.disconnect, hs]
  · intro s hconn
    simp [conn_state.disconnect, hconn]
  · intro s tr h hconn hs
    have hb := conn_run_fires_bound tr s.disconnect h
    have hp : s.disconnect.pending = [] := by
      unfold conn_state.disconnect
      rw [hconn]
      simp
    rw [hp, hs] at hb
    simp only [pending_count, List.filter_nil, List.length_nil, Nat.add_zero,
      Nat.le_zero] at hb
    exact List.length_eq_zero.mp hb

/-- Witness for C4 at the specification's scenario: a connection with two
outstanding asynchronous sends is disconnected; a second disconnect
changes nothing, the table and registries are empty, and neither callback
fires even when both completions arrive afterwards. -/
theorem C4_disconnect_idempotent_clears_and_drops_witness :
    (conn_state.disconnect ⟨true, [(1, 10), (2, 20)], [5], [(6, 7)], [8]⟩).disconnect =
      conn_state.disconnect ⟨true, [(1, 10), (2, 20)], [5], [(6, 7)], [8]⟩ ∧
    (conn_state.disconnect ⟨true, [(1, 10), (2, 20)], [5], [(6, 7)], [8]⟩).pending = [] ∧
    fires_for 1 (((conn_state.disconnect ⟨true, [(1, 10), (2, 20)], [5], [(6, 7)], [8]⟩).run
        [.complete 1, .complete 2]).2) = [] ∧
    fires_for 2 (((conn_state.disconnect ⟨true, [(1, 10), (2, 20)], [5], [(6, 7)], [8]⟩).run
        [.complete 1, .complete 2]).2) = [] :=
  ⟨C4_disconnect_idempotent_clears_and_drops.1 ⟨true, [(1, 10), (2, 20)], [5], [(6, 7)], [8]⟩,
   (C4_disconnect_idempotent_clears_and_drops.2.1 ⟨true, [(1, 10), (2, 20)], [5], [(6, 7)], [8]⟩
      rfl).2.1,
   C4_disconnect_idempotent_clears_and_drops.2.2.2 ⟨true, [(1, 10), (2, 20)], [5], [(6, 7)], [8]⟩
     [.complete 1, .complete 2] 1 rfl rfl,
   C4_disconnect_idempotent_clears_and_drops.2.2.2 ⟨true, [(1, 10), (2, 20)], [5], [(6, 7)], [8]⟩
     [.complete 1, .complete 2] 2 rfl rfl⟩
